import Mathlib

/-!
Verification of the Observable/Observer/Subscription core of
`src/index.ts` (a minimal synchronous push-based reactive-stream
primitive).

Embedding: handler callbacks are side-effecting consumer code whose only
core-visible aspect is whether they are present and when they are
invoked, so the handler record is modelled by three presence flags and
every handler (or teardown) invocation is recorded as an event appended
to a trace.  An `Observer` is a record of the handler flags, the
`isUnsubscribed` boolean and the optional installed teardown action
(`_unsubscribe`); each Observer method is a function from
(state, trace) to (state, trace), exactly mirroring the guards of the
TypeScript source.  A synchronous subscribe function is the list of
Observer calls it performs (it always returns a teardown action, as in
the source where the constructor argument has type
`(observer: Observer<T>) => () => void`); running a teardown appends a
single `teardownRun` event, so the number of `teardownRun` events in a
trace is the number of times the teardown action was invoked.
-/

namespace TSObservable

/-- The handler record `{ next?, error?, complete? }`: three
independently optional callbacks, modelled by presence flags
(`ObserverHandlers<T>` in the source). -/
structure ObserverHandlers where
  hasNext : Bool
  hasError : Bool
  hasComplete : Bool
deriving DecidableEq, Repr

/-- Core-visible events of one subscription run: an invocation of the
`next` / `error` / `complete` handler with its argument, or one
invocation of the installed teardown action. -/
inductive HEvent (T E : Type) where
  | onNext (v : T)
  | onError (e : E)
  | onComplete
  | teardownRun
deriving DecidableEq, Repr

/-- The state of one `Observer<T>`: the wrapped handler record, the
`isUnsubscribed` flag (initially `false`) and the optional installed
teardown action `_unsubscribe` (initially absent).  The teardown action
itself is opaque to the core, so it is modelled by a `Unit` marker whose
invocation emits a `teardownRun` event. -/
structure ObserverState (T E : Type) where
  handlers : ObserverHandlers
  isUnsubscribed : Bool
  unsubAction : Option Unit
deriving DecidableEq, Repr

variable {T E : Type}

/-- `Observer.next(value)`: if not unsubscribed and a `next` handler
exists, invoke it with the value; otherwise do nothing. -/
def Observer.next (s : ObserverState T E) (tr : List (HEvent T E)) (v : T) :
    ObserverState T E × List (HEvent T E) :=
  if !s.isUnsubscribed && s.handlers.hasNext then
    (s, tr ++ [HEvent.onNext v])
  else
    (s, tr)

/-- `Observer.unsubscribe()`: set `isUnsubscribed = true` and, if a
teardown action has been installed, invoke it.  Note there is no guard
against the flag already being set. -/
def Observer.unsubscribe (s : ObserverState T E) (tr : List (HEvent T E)) :
    ObserverState T E × List (HEvent T E) :=
  let s' : ObserverState T E := { s with isUnsubscribed := true }
  match s'.unsubAction with
  | some _ => (s', tr ++ [HEvent.teardownRun])
  | none => (s', tr)

/-- `Observer.error(error)`: if not unsubscribed, invoke the `error`
handler when present and then close via `unsubscribe()`. -/
def Observer.error (s : ObserverState T E) (tr : List (HEvent T E)) (e : E) :
    ObserverState T E × List (HEvent T E) :=
  if !s.isUnsubscribed then
    let tr' := if s.handlers.hasError then tr ++ [HEvent.onError e] else tr
    Observer.unsubscribe s tr'
  else
    (s, tr)

/-- `Observer.complete()`: if not unsubscribed, invoke the `complete`
handler when present and then close via `unsubscribe()`. -/
def Observer.complete (s : ObserverState T E) (tr : List (HEvent T E)) :
    ObserverState T E × List (HEvent T E) :=
  if !s.isUnsubscribed then
    let tr' := if s.handlers.hasComplete then tr ++ [HEvent.onComplete] else tr
    Observer.unsubscribe s tr'
  else
    (s, tr)

/-- `Observer.setUnsubscribe(unsub)`: install the teardown action. -/
def Observer.setUnsubscribe (s : ObserverState T E) (unsub : Unit) :
    ObserverState T E :=
  { s with unsubAction := some unsub }

/-- One call a subscribe function can make on the Observer it is
handed (the source's subscribe functions call `observer.next`,
`observer.error`, `observer.complete`; `observer.unsubscribe` is also
reachable on the public surface). -/
inductive Cmd (T E : Type) where
  | next (v : T)
  | error (e : E)
  | complete
  | unsubscribe
deriving DecidableEq, Repr

/-- Dispatch one Observer call. -/
def step (s : ObserverState T E) (tr : List (HEvent T E)) :
    Cmd T E → ObserverState T E × List (HEvent T E)
  | Cmd.next v => Observer.next s tr v
  | Cmd.error e => Observer.error s tr e
  | Cmd.complete => Observer.complete s tr
  | Cmd.unsubscribe => Observer.unsubscribe s tr

/-- Run a synchronous sequence of Observer calls (the body of a
subscribe function) in order. -/
def runCmds : List (Cmd T E) → ObserverState T E → List (HEvent T E) →
    ObserverState T E × List (HEvent T E)
  | [], s, tr => (s, tr)
  | c :: cs, s, tr => runCmds cs (step s tr c).1 (step s tr c).2

/-- `Observable<T>` wraps one subscribe function: the Observer calls it
performs synchronously.  As in the source, the subscribe function also
returns a teardown action (modelled by the `Unit` marker installed
after the run). -/
structure Observable (T E : Type) where
  subscribeFn : List (Cmd T E)

/-- `Observable.from(values)`: the subscribe function emits every
element of `values` in order via `next`, then calls `complete()`, and
returns a teardown action (the source's diagnostic
`console.log('unsubscribed')`). -/
def Observable.fromList (values : List T) : Observable T E :=
  ⟨values.map Cmd.next ++ [Cmd.complete]⟩

/-- The production phase of `Observable.subscribe(handlers)`: construct
a fresh Observer around the handlers and invoke the stored subscribe
function with it (the state of `subscribe` at line 106 of the source,
before `setUnsubscribe` runs). -/
def Observable.runProduction (obs : Observable T E)
    (handlers : ObserverHandlers) :
    ObserverState T E × List (HEvent T E) :=
  runCmds obs.subscribeFn ⟨handlers, false, none⟩ []

/-- `Observable.subscribe(handlers)`: run the production phase, then
install the returned teardown action on the Observer via
`setUnsubscribe`.  The resulting Observer state is what the returned
Subscription closes over; the trace lists every handler invocation that
happened during the call. -/
def Observable.subscribe (obs : Observable T E)
    (handlers : ObserverHandlers) :
    ObserverState T E × List (HEvent T E) :=
  (Observer.setUnsubscribe (obs.runProduction handlers).1 (),
   (obs.runProduction handlers).2)

/-- `subscription.unsubscribe()`: the Subscription returned by
`subscribe` delegates to the Observer's `unsubscribe()`. -/
def Subscription.unsubscribe (s : ObserverState T E)
    (tr : List (HEvent T E)) : ObserverState T E × List (HEvent T E) :=
  Observer.unsubscribe s tr

/-- Is this event an invocation of the teardown action? -/
def HEvent.isTeardown : HEvent T E → Bool
  | HEvent.teardownRun => true
  | _ => false

/-- Is this event a terminal-handler invocation (`error` or `complete`
handler)? -/
def HEvent.isTerminal : HEvent T E → Bool
  | HEvent.onError _ => true
  | HEvent.onComplete => true
  | _ => false

/-- Number of teardown invocations recorded in a trace. -/
def teardownCount (tr : List (HEvent T E)) : Nat :=
  List.countP HEvent.isTeardown tr

/-- Number of terminal-handler invocations recorded in a trace. -/
def terminalCount (tr : List (HEvent T E)) : Nat :=
  List.countP HEvent.isTerminal tr

/-- A handler record with all three callbacks supplied. -/
def allHandlers : ObserverHandlers := ⟨true, true, true⟩

/-- A handler record with no callback supplied. -/
def noHandlers : ObserverHandlers := ⟨false, false, false⟩

/-! ### Basic lemmas about the Observer operations -/

theorem unsubscribe_eq (s : ObserverState T E) (tr : List (HEvent T E)) :
    Observer.unsubscribe s tr =
      ({ s with isUnsubscribed := true },
       if s.unsubAction.isSome then tr ++ [HEvent.teardownRun] else tr) := by
  rcases s with ⟨hd, fl, ua⟩
  cases ua <;> rfl

theorem next_eq (s : ObserverState T E) (tr : List (HEvent T E)) (v : T) :
    Observer.next s tr v =
      (s, if !s.isUnsubscribed && s.handlers.hasNext then
            tr ++ [HEvent.onNext v]
          else tr) := by
  unfold Observer.next
  cases hc : (!s.isUnsubscribed && s.handlers.hasNext) <;> simp [hc]

theorem error_eq (s : ObserverState T E) (tr : List (HEvent T E)) (e : E) :
    Observer.error s tr e =
      if s.isUnsubscribed then (s, tr)
      else
        Observer.unsubscribe s
          (if s.handlers.hasError then tr ++ [HEvent.onError e] else tr) := by
  unfold Observer.error
  cases hc : s.isUnsubscribed <;> simp [hc]

theorem complete_eq (s : ObserverState T E) (tr : List (HEvent T E)) :
    Observer.complete s tr =
      if s.isUnsubscribed then (s, tr)
      else
        Observer.unsubscribe s
          (if s.handlers.hasComplete then tr ++ [HEvent.onComplete] else tr) := by
  unfold Observer.complete
  cases hc : s.isUnsubscribed <;> simp [hc]

/-- `unsubscribe` always leaves the flag set. -/
theorem unsubscribe_flag (s : ObserverState T E) (tr : List (HEvent T E)) :
    (Observer.unsubscribe s tr).1.isUnsubscribed = true := by
  rw [unsubscribe_eq]

/-- After `error` the flag is set (it already was, or `error` closed the
Observer via `unsubscribe`). -/
theorem error_flag (s : ObserverState T E) (tr : List (HEvent T E)) (e : E) :
    (Observer.error s tr e).1.isUnsubscribed = true := by
  rw [error_eq]
  cases hc : s.isUnsubscribed <;> simp [hc, unsubscribe_flag]

/-- After `complete` the flag is set. -/
theorem complete_flag (s : ObserverState T E) (tr : List (HEvent T E)) :
    (Observer.complete s tr).1.isUnsubscribed = true := by
  rw [complete_eq]
  cases hc : s.isUnsubscribed <;> simp [hc, unsubscribe_flag]

/-- No Observer call changes the installed-teardown slot. -/
theorem step_fst_unsubAction (s : ObserverState T E) (tr : List (HEvent T E))
    (c : Cmd T E) : (step s tr c).1.unsubAction = s.unsubAction := by
  cases c <;>
    cases hf : s.isUnsubscribed <;>
      simp [step, next_eq, error_eq, complete_eq, unsubscribe_eq, hf]

/-- Running a whole command sequence does not change the
installed-teardown slot. -/
theorem runCmds_fst_unsubAction (p : List (Cmd T E)) :
    ∀ (s : ObserverState T E) (tr : List (HEvent T E)),
      (runCmds p s tr).1.unsubAction = s.unsubAction := by
  induction p with
  | nil => intro s tr; rfl
  | cons c cs ih =>
      intro s tr
      simp only [runCmds]
      rw [ih, step_fst_unsubAction]

theorem teardownCount_append (tr l : List (HEvent T E)) :
    teardownCount (tr ++ l) = teardownCount tr + teardownCount l := by
  simp [teardownCount, List.countP_append]

theorem terminalCount_append (tr l : List (HEvent T E)) :
    terminalCount (tr ++ l) = terminalCount tr + terminalCount l := by
  simp [terminalCount, List.countP_append]

/-- While no teardown action is installed, no Observer call records a
teardown invocation. -/
theorem step_teardownCount_none (s : ObserverState T E)
    (tr : List (HEvent T E)) (c : Cmd T E) (h : s.unsubAction = none) :
    teardownCount (step s tr c).2 = teardownCount tr := by
  cases c <;>
    cases hf : s.isUnsubscribed <;>
      cases hn : s.handlers.hasNext <;>
        cases he : s.handlers.hasError <;>
          cases hco : s.handlers.hasComplete <;>
            simp [step, next_eq, error_eq, complete_eq, unsubscribe_eq, h, hf,
              hn, he, hco, teardownCount_append, teardownCount,
              HEvent.isTeardown]

/-- While no teardown action is installed, running a whole command
sequence records no teardown invocation. -/
theorem runCmds_teardownCount_none (p : List (Cmd T E)) :
    ∀ (s : ObserverState T E) (tr : List (HEvent T E)),
      s.unsubAction = none →
      teardownCount (runCmds p s tr).2 = teardownCount tr := by
  induction p with
  | nil => intro s tr _; rfl
  | cons c cs ih =>
      intro s tr h
      simp only [runCmds]
      rw [ih _ _ (by rw [step_fst_unsubAction]; exact h),
        step_teardownCount_none _ _ _ h]

/-- Running a concatenated command sequence runs the two parts in
order. -/
theorem runCmds_append (p q : List (Cmd T E)) :
    ∀ (s : ObserverState T E) (tr : List (HEvent T E)),
      runCmds (p ++ q) s tr =
        runCmds q (runCmds p s tr).1 (runCmds p s tr).2 := by
  induction p with
  | nil => intro s tr; rfl
  | cons c cs ih =>
      intro s tr
      simp only [List.cons_append, runCmds]
      exact ih _ _

/-- On a closed Observer, a single call keeps the flag set and invokes
no terminal handler. -/
theorem step_closed (s : ObserverState T E) (tr : List (HEvent T E))
    (c : Cmd T E) (h : s.isUnsubscribed = true) :
    (step s tr c).1.isUnsubscribed = true ∧
      terminalCount (step s tr c).2 = terminalCount tr := by
  cases c <;>
    cases hu : s.unsubAction.isSome <;>
      simp [step, next_eq, error_eq, complete_eq, unsubscribe_eq, h, hu,
        terminalCount_append, terminalCount, HEvent.isTerminal]

/-- On a closed Observer, a whole command sequence keeps the flag set
and invokes no terminal handler. -/
theorem runCmds_closed (p : List (Cmd T E)) :
    ∀ (s : ObserverState T E) (tr : List (HEvent T E)),
      s.isUnsubscribed = true →
      (runCmds p s tr).1.isUnsubscribed = true ∧
        terminalCount (runCmds p s tr).2 = terminalCount tr := by
  induction p with
  | nil => intro s tr h; exact ⟨h, rfl⟩
  | cons c cs ih =>
      intro s tr h
      simp only [runCmds]
      obtain ⟨h1, h2⟩ := step_closed s tr c h
      obtain ⟨h3, h4⟩ := ih _ _ h1
      exact ⟨h3, by rw [h4, h2]⟩

/-- Starting from an open Observer, a command sequence invokes at most
one terminal handler beyond those already recorded. -/
theorem runCmds_open (p : List (Cmd T E)) :
    ∀ (s : ObserverState T E) (tr : List (HEvent T E)),
      s.isUnsubscribed = false →
      terminalCount (runCmds p s tr).2 ≤ terminalCount tr + 1 := by
  induction p with
  | nil => intro s tr _; exact Nat.le_succ _
  | cons c cs ih =>
      intro s tr h
      simp only [runCmds]
      cases c with
      | next v =>
          have hfst : (step s tr (Cmd.next v)).1 = s := by
            simp [step, next_eq]
          have htr : terminalCount (step s tr (Cmd.next v)).2 =
              terminalCount tr := by
            cases hn : (!s.isUnsubscribed && s.handlers.hasNext) <;>
              simp [step, next_eq, hn, terminalCount_append, terminalCount,
                HEvent.isTerminal]
          rw [hfst]
          calc terminalCount (runCmds cs s (step s tr (Cmd.next v)).2).2
              ≤ terminalCount (step s tr (Cmd.next v)).2 + 1 := ih s _ h
            _ = terminalCount tr + 1 := by rw [htr]
      | error e =>
          have hflag : (step s tr (Cmd.error e)).1.isUnsubscribed = true := by
            simp [step, error_flag]
          have htr : terminalCount (step s tr (Cmd.error e)).2 ≤
              terminalCount tr + 1 := by
            cases he : s.handlers.hasError <;>
              cases hu : s.unsubAction.isSome <;>
                simp [step, error_eq, unsubscribe_eq, h, he, hu,
                  terminalCount_append, terminalCount, HEvent.isTerminal]
          have := (runCmds_closed cs (step s tr (Cmd.error e)).1
            (step s tr (Cmd.error e)).2 hflag).2
          rw [this]
          exact htr
      | complete =>
          have hflag : (step s tr Cmd.complete).1.isUnsubscribed = true := by
            simp [step, complete_flag]
          have htr : terminalCount (step s tr Cmd.complete).2 ≤
              terminalCount tr + 1 := by
            cases hco : s.handlers.hasComplete <;>
              cases hu : s.unsubAction.isSome <;>
                simp [step, complete_eq, unsubscribe_eq, h, hco, hu,
                  terminalCount_append, terminalCount, HEvent.isTerminal]
          have := (runCmds_closed cs (step s tr Cmd.complete).1
            (step s tr Cmd.complete).2 hflag).2
          rw [this]
          exact htr
      | unsubscribe =>
          have hflag : (step s tr Cmd.unsubscribe).1.isUnsubscribed = true := by
            simp [step, unsubscribe_flag]
          have htr : terminalCount (step s tr Cmd.unsubscribe).2 =
              terminalCount tr := by
            cases hu : s.unsubAction.isSome <;>
              simp [step, unsubscribe_eq, hu, terminalCount_append,
                terminalCount, HEvent.isTerminal]
          have := (runCmds_closed cs (step s tr Cmd.unsubscribe).1
            (step s tr Cmd.unsubscribe).2 hflag).2
          rw [this, htr]
          exact Nat.le_succ _

/-- Emitting a list of values via `next` on an open Observer with a
`next` handler records exactly those values, in order, and leaves the
state unchanged. -/
theorem runCmds_map_next (vs : List T) :
    ∀ (s : ObserverState T E) (tr : List (HEvent T E)),
      s.isUnsubscribed = false → s.handlers.hasNext = true →
      runCmds (vs.map Cmd.next) s tr =
        (s, tr ++ vs.map HEvent.onNext) := by
  induction vs with
  | nil => intro s tr _ _; simp [runCmds]
  | cons v vs ih =>
      intro s tr hopen hn
      simp only [List.map_cons, runCmds, step, next_eq, hopen, hn]
      rw [ih s _ hopen hn]
      simp

/-- Setting the closed flag twice is the same as setting it once. -/
theorem flag_update_idem (s : ObserverState T E) :
    ({ ({ s with isUnsubscribed := true } : ObserverState T E) with
        isUnsubscribed := true } : ObserverState T E) =
      { s with isUnsubscribed := true } := rfl

/-! ### The claims -/

/-- C1 counterexample: subscribing to `Observable.from([1])` closes the
Observer by natural completion, yet the teardown action has run zero
times rather than exactly once — the subscribe function's teardown is
installed only after the production run has already closed the
Observer. -/
theorem C1_counterexample :
    ((Observable.fromList [1] : Observable Nat String).subscribe
        allHandlers).1.isUnsubscribed = true ∧
      teardownCount
        ((Observable.fromList [1] : Observable Nat String).subscribe
          allHandlers).2 = 0 :=
  ⟨rfl, rfl⟩

/-- C1 (amended): a teardown action returned by the subscribe function
is never invoked during the `subscribe()` call itself — a close
triggered inside the production run (natural completion or error)
happens while the teardown slot is still empty — and afterwards each
explicit `subscription.unsubscribe()` call invokes the installed
teardown exactly once per call. -/
theorem C1_teardown_only_on_explicit_unsubscribe (T E : Type)
    (obs : Observable T E) (h : ObserverHandlers) :
    teardownCount (obs.subscribe h).2 = 0 ∧
      (Subscription.unsubscribe (obs.subscribe h).1 (obs.subscribe h).2).2 =
        (obs.subscribe h).2 ++ [HEvent.teardownRun] ∧
      (Subscription.unsubscribe
          (Subscription.unsubscribe (obs.subscribe h).1
            (obs.subscribe h).2).1
          (Subscription.unsubscribe (obs.subscribe h).1
            (obs.subscribe h).2).2).2 =
        (obs.subscribe h).2 ++ [HEvent.teardownRun, HEvent.teardownRun] := by
  have hsome : (obs.subscribe h).1.unsubAction.isSome = true := rfl
  have h1 : Subscription.unsubscribe (obs.subscribe h).1 (obs.subscribe h).2 =
      ({ (obs.subscribe h).1 with isUnsubscribed := true },
       (obs.subscribe h).2 ++ [HEvent.teardownRun]) := by
    simp [Subscription.unsubscribe, unsubscribe_eq, hsome]
  refine ⟨?_, by rw [h1], ?_⟩
  · show teardownCount (obs.runProduction h).2 = 0
    exact runCmds_teardownCount_none _ _ _ rfl
  · rw [h1]
    simp [Subscription.unsubscribe, unsubscribe_eq, hsome]

/-- C2: subscribing to `Observable.from(vs)` with handlers that include
`next` and `complete` records exactly the elements of `vs`, in order,
followed by a single completion — each element is delivered to the
`next` handler exactly once and in the list's order, and the `complete`
handler fires exactly once, after all of them. -/
theorem C2_from_order_completion (T E : Type) (vs : List T)
    (h : ObserverHandlers) (hn : h.hasNext = true)
    (hc : h.hasComplete = true) :
    ((Observable.fromList vs : Observable T E).subscribe h).2 =
      vs.map HEvent.onNext ++ [HEvent.onComplete] := by
  show ((Observable.fromList vs : Observable T E).runProduction h).2 = _
  unfold Observable.runProduction Observable.fromList
  rw [runCmds_append, runCmds_map_next vs _ _ rfl hn]
  simp [runCmds, step, complete_eq, unsubscribe_eq, hc]

/-- C2 witness: Scenario A — `from([1,2,3])` subscribed with all three
handlers records `1, 2, 3` and then the completion. -/
theorem C2_witness :
    allHandlers.hasNext = true ∧ allHandlers.hasComplete = true ∧
      ((Observable.fromList [1, 2, 3] : Observable Nat String).subscribe
          allHandlers).2 =
        [1, 2, 3].map HEvent.onNext ++ [HEvent.onComplete] :=
  ⟨rfl, rfl, C2_from_order_completion Nat String [1, 2, 3] allHandlers rfl rfl⟩

/-- C3: after a terminal signal (`error` or `complete`) the Observer is
closed, so any subsequent `next` call is a complete no-op — no handler
invocation, no state change; concretely, the run
`next(1); error('boom'); next(2)` invokes the `next` handler only with
`1` and the `error` handler with `'boom'`, suppressing the second
`next(2)`. -/
theorem C3_post_terminal_silence :
    (∀ (T E : Type) (s : ObserverState T E) (tr : List (HEvent T E)) (e : E)
        (v : T),
        Observer.next (Observer.error s tr e).1 (Observer.error s tr e).2 v =
          Observer.error s tr e) ∧
      (∀ (T E : Type) (s : ObserverState T E) (tr : List (HEvent T E))
          (v : T),
          Observer.next (Observer.complete s tr).1
              (Observer.complete s tr).2 v =
            Observer.complete s tr) ∧
      runCmds [Cmd.next 1, Cmd.error "boom", Cmd.next 2]
          (⟨allHandlers, false, none⟩ : ObserverState Nat String) [] =
        (⟨allHandlers, true, none⟩,
         [HEvent.onNext 1, HEvent.onError "boom"]) := by
  refine ⟨?_, ?_, rfl⟩
  · intro T E s tr e v
    rw [next_eq, error_flag]
    simp
  · intro T E s tr v
    rw [next_eq, complete_flag]
    simp

/-- C4: over any synchronous sequence of Observer calls on a fresh
Observer at most one terminal handler invocation (`error` or
`complete`) is ever recorded; a terminal call always leaves the closed
flag set, a terminal call arriving after a terminal call is a complete
no-op in both orders, and `unsubscribe` itself never invokes a terminal
handler. -/
theorem C4_terminal_mutual_exclusion :
    (∀ (T E : Type) (p : List (Cmd T E)) (h : ObserverHandlers),
        terminalCount (runCmds p ⟨h, false, none⟩ []).2 ≤ 1) ∧
      (∀ (T E : Type) (s : ObserverState T E) (tr : List (HEvent T E))
          (e : E), (Observer.error s tr e).1.isUnsubscribed = true) ∧
      (∀ (T E : Type) (s : ObserverState T E) (tr : List (HEvent T E)),
          (Observer.complete s tr).1.isUnsubscribed = true) ∧
      (∀ (T E : Type) (s : ObserverState T E) (tr : List (HEvent T E))
          (e : E),
          Observer.complete (Observer.error s tr e).1
              (Observer.error s tr e).2 =
            Observer.error s tr e) ∧
      (∀ (T E : Type) (s : ObserverState T E) (tr : List (HEvent T E))
          (e : E),
          Observer.error (Observer.complete s tr).1
              (Observer.complete s tr).2 e =
            Observer.complete s tr) ∧
      (∀ (T E : Type) (s : ObserverState T E) (tr : List (HEvent T E)),
          terminalCount (Observer.unsubscribe s tr).2 = terminalCount tr) := by
  refine ⟨?_, ?_, ?_, ?_, ?_, ?_⟩
  · intro T E p h
    simpa using runCmds_open p ⟨h, false, none⟩ [] rfl
  · intro T E s tr e
    exact error_flag s tr e
  · intro T E s tr
    exact complete_flag s tr
  · intro T E s tr e
    rw [complete_eq, error_flag]
    simp
  · intro T E s tr e
    rw [error_eq, complete_flag]
    simp
  · intro T E s tr
    rw [unsubscribe_eq]
    cases hu : s.unsubAction.isSome <;>
      simp [hu, terminalCount_append, terminalCount, HEvent.isTerminal]

/-- C5 counterexample: in the `subscribe()` run of `Observable.from([1])`
signals are delivered — the production trace is
`[onNext 1, onComplete]` — while the Observer's teardown slot is still
empty; the teardown is therefore not installed "immediately after
construction and before any signal can be delivered": every signal of
the run precedes the installation. -/
theorem C5_counterexample :
    ((Observable.fromList [1] : Observable Nat String).runProduction
        allHandlers).2 = [HEvent.onNext 1, HEvent.onComplete] ∧
      ((Observable.fromList [1] : Observable Nat String).runProduction
          allHandlers).1.unsubAction = none ∧
      ((Observable.fromList [1] : Observable Nat String).subscribe
          allHandlers).1.unsubAction = some () :=
  ⟨rfl, rfl, rfl⟩

/-- C5 (amended): per `subscribe()` run the teardown action is installed
via `setUnsubscribe` exactly once, but only after the subscribe function
has returned: throughout the production run the teardown slot stays
empty, all of the run's signals are delivered during production, and
only the Observer handed to the returned Subscription has the teardown
installed. -/
theorem C5_teardown_installed_after_run (T E : Type) (obs : Observable T E)
    (h : ObserverHandlers) :
    (obs.runProduction h).1.unsubAction = none ∧
      (obs.subscribe h).2 = (obs.runProduction h).2 ∧
      (obs.subscribe h).1.unsubAction = some () := by
  refine ⟨?_, rfl, rfl⟩
  unfold Observable.runProduction
  exact runCmds_fst_unsubAction _ _ _

/-- C6: calling the Subscription's `unsubscribe()` twice yields the same
closed Observer state as calling it once (`closed` remains `true`), and
each call re-invokes the installed teardown action — with no "already
torn down" guard, the second call appends a second teardown
invocation. -/
theorem C6_unsubscribe_twice (T E : Type) (obs : Observable T E)
    (h : ObserverHandlers) :
    (Subscription.unsubscribe (obs.subscribe h).1
        (obs.subscribe h).2).1.isUnsubscribed = true ∧
      (Subscription.unsubscribe
          (Subscription.unsubscribe (obs.subscribe h).1
            (obs.subscribe h).2).1
          (Subscription.unsubscribe (obs.subscribe h).1
            (obs.subscribe h).2).2).1 =
        (Subscription.unsubscribe (obs.subscribe h).1
          (obs.subscribe h).2).1 ∧
      (Subscription.unsubscribe (obs.subscribe h).1 (obs.subscribe h).2).2 =
        (obs.subscribe h).2 ++ [HEvent.teardownRun] ∧
      (Subscription.unsubscribe
          (Subscription.unsubscribe (obs.subscribe h).1
            (obs.subscribe h).2).1
          (Subscription.unsubscribe (obs.subscribe h).1
            (obs.subscribe h).2).2).2 =
        (obs.subscribe h).2 ++ [HEvent.teardownRun, HEvent.teardownRun] := by
  have hsome : (obs.subscribe h).1.unsubAction.isSome = true := rfl
  have h1 : Subscription.unsubscribe (obs.subscribe h).1 (obs.subscribe h).2 =
      ({ (obs.subscribe h).1 with isUnsubscribed := true },
       (obs.subscribe h).2 ++ [HEvent.teardownRun]) := by
    simp [Subscription.unsubscribe, unsubscribe_eq, hsome]
  refine ⟨by rw [h1], ?_, by rw [h1], ?_⟩
  · rw [h1]
    show (Observer.unsubscribe
        { (obs.subscribe h).1 with isUnsubscribed := true }
        ((obs.subscribe h).2 ++ [HEvent.teardownRun])).1 = _
    rw [unsubscribe_eq]
  · rw [h1]
    show (Observer.unsubscribe
        { (obs.subscribe h).1 with isUnsubscribed := true }
        ((obs.subscribe h).2 ++ [HEvent.teardownRun])).2 = _
    rw [unsubscribe_eq]
    simp [hsome]

/-- C7: calling `error(e)` on an open Observer with no `error` handler
behaves exactly like a bare `unsubscribe()`: the error value is
discarded — the result does not depend on `e` and no handler event is
appended, so the core neither reports nor fails — and the Observer
still transitions to closed. -/
theorem C7_error_without_handler (T E : Type) (s : ObserverState T E)
    (tr : List (HEvent T E)) (e : E) (hopen : s.isUnsubscribed = false)
    (hno : s.handlers.hasError = false) :
    Observer.error s tr e = Observer.unsubscribe s tr ∧
      (Observer.error s tr e).1.isUnsubscribed = true ∧
      terminalCount (Observer.error s tr e).2 = terminalCount tr := by
  have h1 : Observer.error s tr e = Observer.unsubscribe s tr := by
    rw [error_eq, hopen, hno]
    simp
  refine ⟨h1, error_flag s tr e, ?_⟩
  rw [h1, unsubscribe_eq]
  cases hu : s.unsubAction.isSome <;>
    simp [hu, terminalCount_append, terminalCount, HEvent.isTerminal]

/-- C7 witness: an open Observer with `next` and `complete` handlers but
no `error` handler, receiving `error("boom")`. -/
theorem C7_witness :
    (⟨⟨true, false, true⟩, false, some ()⟩ :
        ObserverState Nat String).isUnsubscribed = false ∧
      (⟨⟨true, false, true⟩, false, some ()⟩ :
          ObserverState Nat String).handlers.hasError = false ∧
      (Observer.error
            (⟨⟨true, false, true⟩, false, some ()⟩ :
              ObserverState Nat String) [] "boom" =
          Observer.unsubscribe
            (⟨⟨true, false, true⟩, false, some ()⟩ :
              ObserverState Nat String) [] ∧
        (Observer.error
              (⟨⟨true, false, true⟩, false, some ()⟩ :
                ObserverState Nat String) []
              "boom").1.isUnsubscribed = true ∧
        terminalCount
            (Observer.error
              (⟨⟨true, false, true⟩, false, some ()⟩ :
                ObserverState Nat String) [] "boom").2 =
          terminalCount ([] : List (HEvent Nat String))) :=
  ⟨rfl, rfl,
    C7_error_without_handler Nat String
      (⟨⟨true, false, true⟩, false, some ()⟩ : ObserverState Nat String) []
      "boom" rfl rfl⟩

/-- C8 counterexample: subscribing to `Observable.from(['x'])` with no
handlers closes the Observer, yet the teardown has run zero times — the
teardown does not run on close, contrary to the claim's last clause. -/
theorem C8_counterexample :
    ((Observable.fromList ["x"] : Observable String String).subscribe
        noHandlers).1.isUnsubscribed = true ∧
      teardownCount
        ((Observable.fromList ["x"] : Observable String String).subscribe
          noHandlers).2 = 0 :=
  ⟨rfl, rfl⟩

/-- C8 (amended): subscribing to `Observable.from(['x'])` with an empty
handler record produces no handler output at all (the trace is empty —
and in this total embedding no exception is possible), production still
runs to completion and closes the Observer, and the teardown runs not
at close but on a later explicit `subscription.unsubscribe()` call. -/
theorem C8_silent_subscriber :
    ((Observable.fromList ["x"] : Observable String String).subscribe
        noHandlers).2 = [] ∧
      ((Observable.fromList ["x"] : Observable String String).subscribe
          noHandlers).1.isUnsubscribed = true ∧
      (Subscription.unsubscribe
          ((Observable.fromList ["x"] : Observable String String).subscribe
            noHandlers).1
          ((Observable.fromList ["x"] : Observable String String).subscribe
            noHandlers).2).2 = [HEvent.teardownRun] :=
  ⟨rfl, rfl, rfl⟩

/-- C9: for an Observable built by `from`, a subscription run in which
the consumer never calls `subscription.unsubscribe()` never executes
the returned teardown action: the production's `complete()` closes the
Observer while the teardown slot is still empty, and `setUnsubscribe`
fills the slot only after the subscribe function has returned. -/
theorem C9_from_natural_completion_no_teardown (T E : Type) (vs : List T)
    (h : ObserverHandlers) :
    teardownCount
        ((Observable.fromList vs : Observable T E).subscribe h).2 = 0 ∧
      ((Observable.fromList vs : Observable T E).runProduction
          h).1.isUnsubscribed = true ∧
      ((Observable.fromList vs : Observable T E).runProduction
          h).1.unsubAction = none ∧
      ((Observable.fromList vs : Observable T E).subscribe h).1.unsubAction =
        some () := by
  refine ⟨?_, ?_, ?_, rfl⟩
  · show teardownCount
        ((Observable.fromList vs : Observable T E).runProduction h).2 = 0
    unfold Observable.runProduction
    exact runCmds_teardownCount_none _ _ _ rfl
  · unfold Observable.runProduction Observable.fromList
    rw [runCmds_append]
    simp [runCmds, step, complete_flag]
  · unfold Observable.runProduction
    exact runCmds_fst_unsubAction _ _ _

/-- C10: on an Observer whose teardown slot is still empty, the presence
check on the optional `_unsubscribe` field guards the invocation, so
`unsubscribe()` merely sets the flag (its result is the explicit no-op
pair), and `error`, `complete` and `next` likewise never attempt a
teardown invocation — all are safe before `setUnsubscribe` has been
called. -/
theorem C10_safe_without_teardown (T E : Type) (s : ObserverState T E)
    (tr : List (HEvent T E)) (e : E) (v : T)
    (hnone : s.unsubAction = none) :
    Observer.unsubscribe s tr = ({ s with isUnsubscribed := true }, tr) ∧
      teardownCount (Observer.error s tr e).2 = teardownCount tr ∧
      teardownCount (Observer.complete s tr).2 = teardownCount tr ∧
      teardownCount (Observer.next s tr v).2 = teardownCount tr ∧
      (Observer.unsubscribe s tr).1.isUnsubscribed = true := by
  refine ⟨?_, ?_, ?_, ?_, unsubscribe_flag s tr⟩
  · rw [unsubscribe_eq, hnone]
    simp
  · exact step_teardownCount_none s tr (Cmd.error e) hnone
  · exact step_teardownCount_none s tr Cmd.complete hnone
  · exact step_teardownCount_none s tr (Cmd.next v) hnone

/-- C10 witness: a fresh Observer (all handlers present, teardown not
yet installed). -/
theorem C10_witness :
    (⟨allHandlers, false, none⟩ :
        ObserverState Nat String).unsubAction = none ∧
      (Observer.unsubscribe
            (⟨allHandlers, false, none⟩ : ObserverState Nat String) [] =
          ({ (⟨allHandlers, false, none⟩ : ObserverState Nat String) with
              isUnsubscribed := true }, []) ∧
        teardownCount
            (Observer.error
              (⟨allHandlers, false, none⟩ : ObserverState Nat String) []
              "boom").2 =
          teardownCount ([] : List (HEvent Nat String)) ∧
        teardownCount
            (Observer.complete
              (⟨allHandlers, false, none⟩ : ObserverState Nat String) []).2 =
          teardownCount ([] : List (HEvent Nat String)) ∧
        teardownCount
            (Observer.next
              (⟨allHandlers, false, none⟩ : ObserverState Nat String) []
              5).2 =
          teardownCount ([] : List (HEvent Nat String)) ∧
        (Observer.unsubscribe
            (⟨allHandlers, false, none⟩ :
              ObserverState Nat String) []).1.isUnsubscribed = true) :=
  ⟨rfl,
    C10_safe_without_teardown Nat String
      (⟨allHandlers, false, none⟩ : ObserverState Nat String) [] "boom" 5
      rfl⟩

end TSObservable
